import Mathlib

/-!
Shallow embedding of the order-creation workflow, order lifecycle manager and
order query surface of a small e-commerce demo.

Source files embedded:
- `src/order-service/src/models/Order.js` (Mongoose schemas: orderItemSchema,
  orderSchema with status enum and timestamps)
- `src/order-service/src/routes/orders.js` (route handlers: POST /,
  PATCH /:id/status, DELETE /:id, GET /:id, GET /user/:userId, GET /)

Modelling conventions:
- JS numbers used for money are embedded as `Rat`; quantities as `Int`
  (the caller may send any number; the schema enforces `min: 1` at save).
- The catalog collaborator (product-service `GET /api/products/:id`) is an
  abstract function `Catalog : String → Option ProductSnapshot`; `none`
  covers both HTTP 404 and any network error, which the route handler
  treats uniformly (the axios call throws, the catch returns 400).
- Mongoose document validation on `save()` is embedded as `validOrderDoc`:
  `required` on a String path rejects null/empty strings, `min` bounds are
  checked, the status enum is checked.  Update validators for
  `findByIdAndUpdate(..., { runValidators: true })` run before the query
  executes, so an invalid status is rejected even when the id is unknown.
- The Mongo store is a `Store`: a list of order documents plus an id
  counter (ids are opaque, system-generated strings).  `timestamps: true`
  is embedded by passing the current time `now : Nat` to each mutating
  operation, which writes it to `updatedAt` (and `createdAt` at creation).
-/

/-- Snapshot returned by the catalog collaborator for a product id:
the fields of the product document that `orders.js` reads
(`product._id`, `product.name`, `product.price`). -/
structure ProductSnapshot where
  mongoId : String
  name : String
  price : Rat
deriving DecidableEq, Repr

/-- The catalog lookup client: `axios.get(PRODUCT_SERVICE_URL + "/api/products/" + productId)`.
`none` means the lookup failed (product absent or any transport error). -/
def Catalog : Type := String → Option ProductSnapshot

/-- One element of the request body `items` array for POST /api/orders.
The handler reads only `productId` and `quantity`; a caller may also send
forged `price` / `name` fields, which are carried here to state that they
are ignored. -/
structure RequestItem where
  productId : String
  quantity : Int
  price : Option Rat := none
  name : Option String := none
deriving DecidableEq, Repr

/-- `shippingAddress` subdocument: five optional string fields
(`Order.js` lines 153-159, none required). -/
structure Address where
  street : Option String := none
  city : Option String := none
  state : Option String := none
  zipCode : Option String := none
  country : Option String := none
deriving DecidableEq, Repr

/-- `orderItemSchema` (Order.js lines 36-81): denormalized snapshot of a
product inside an order. -/
structure OrderItem where
  productId : String
  productName : String
  quantity : Int
  price : Rat
deriving DecidableEq, Repr

/-- `orderSchema` (Order.js lines 88-172) together with the document id and
the `timestamps: true` fields. -/
structure Order where
  id : String
  userId : String
  items : List OrderItem
  totalAmount : Rat
  status : String
  shippingAddress : Address
  createdAt : Nat
  updatedAt : Nat
deriving DecidableEq, Repr

/-- The orders collection: the persisted documents in insertion order, and
the counter from which the next system-generated id is drawn. -/
structure Store where
  orders : List Order
  nextId : Nat
deriving DecidableEq, Repr

/-- The empty collection. -/
def Store.empty : Store := { orders := [], nextId := 0 }

/-- The status enum of `orderSchema.status` (Order.js line 141). -/
def validStatus (s : String) : Bool :=
  s == "pending" || s == "processing" || s == "shipped" || s == "delivered" || s == "cancelled"

/-- Mongoose validation of one `orderItemSchema` subdocument:
`productId` and `productName` are `required` String paths (non-empty),
`quantity` has `min: 1`, `price` has `min: 0`. -/
def validItem (i : OrderItem) : Bool :=
  i.productId != "" && i.productName != "" &&
    decide ((1 : Int) ≤ i.quantity) && decide ((0 : Rat) ≤ i.price)

/-- Mongoose validation of an `orderSchema` document on `save()`:
`userId` required, every embedded item valid, `totalAmount` required with
`min: 0`, `status` restricted to the enum. -/
def validOrderDoc (o : Order) : Bool :=
  o.userId != "" && o.items.all validItem &&
    decide ((0 : Rat) ≤ o.totalAmount) && validStatus o.status

/-- Errors surfaced by the route handlers, tagged with the HTTP status the
route would send and the `message` field of the JSON error body. -/
inductive ApiError where
  | badRequest (message : String)
  | notFound (message : String)
  | serverError (message : String)
deriving DecidableEq, Repr

/-- `Order.findById` / `findByIdAndUpdate` document lookup: first document
whose id matches. -/
def findOrder (st : Store) (id : String) : Option Order :=
  st.orders.find? (fun o => o.id == id)

/-- Replace the documents matching `id` in the collection (there is at most
one, since ids are system-generated and unique). -/
def updateOrder (st : Store) (id : String) (o : Order) : Store :=
  { st with orders := st.orders.map (fun q => if q.id == id then o else q) }

/-- The request body of POST /api/orders:
`{ userId, items, shippingAddress }`. -/
structure CreateRequest where
  userId : String
  items : List RequestItem
  shippingAddress : Address
deriving DecidableEq, Repr

/-- The `for (const item of items)` loop of POST / (orders.js lines 163-235):
walks the requested items in order, looks each up in the catalog, pushes the
enriched snapshot onto `enrichedItems` and accumulates
`totalAmount += product.price * item.quantity`.  On the first failed lookup
it aborts with that item's `productId`.  The first component of the result
is the trace of catalog lookups actually performed (the requested
`productId` of each `axios.get` call issued). -/
def enrichLoop (catalog : Catalog) :
    List RequestItem → List OrderItem → Rat →
    List String × Except String (List OrderItem × Rat)
  | [], enrichedItems, totalAmount => ([], .ok (enrichedItems, totalAmount))
  | item :: rest, enrichedItems, totalAmount =>
    match catalog item.productId with
    | none => ([item.productId], .error item.productId)
    | some product =>
      let oi : OrderItem :=
        { productId := product.mongoId, productName := product.name,
          quantity := item.quantity, price := product.price }
      let step := enrichLoop catalog rest (enrichedItems ++ [oi])
        (totalAmount + product.price * item.quantity)
      (item.productId :: step.1, step.2)

/-- POST /api/orders (orders.js lines 147-265).  Returns the store after the
request, the trace of catalog lookups performed, and either the persisted
order (HTTP 201) or the error response.  A failed lookup yields
400 `Product <id> not found`; a schema-validation failure on `save()` yields
400 with the validation message. -/
def createOrder (st : Store) (catalog : Catalog) (req : CreateRequest) (now : Nat) :
    Store × List String × Except ApiError Order :=
  let step := enrichLoop catalog req.items [] 0
  match step.2 with
  | .error pid => (st, step.1, .error (.badRequest ("Product " ++ pid ++ " not found")))
  | .ok (enrichedItems, totalAmount) =>
    let order : Order :=
      { id := toString st.nextId, userId := req.userId, items := enrichedItems,
        totalAmount := totalAmount, status := "pending",
        shippingAddress := req.shippingAddress, createdAt := now, updatedAt := now }
    if validOrderDoc order then
      ({ orders := st.orders ++ [order], nextId := st.nextId + 1 }, step.1, .ok order)
    else
      (st, step.1, .error (.badRequest "Order validation failed"))

/-- PATCH /api/orders/:id/status (orders.js lines 302-334):
`findByIdAndUpdate(id, { status }, { new: true, runValidators: true })`.
The update validator checks the status enum before the query runs, so an
invalid status is a 400 even for an unknown id; an unknown id is a 404;
otherwise the status is overwritten unconditionally and `updatedAt` is
refreshed by the timestamps option. -/
def setOrderStatus (st : Store) (id : String) (status : String) (now : Nat) :
    Store × Except ApiError Order :=
  if validStatus status then
    match findOrder st id with
    | none => (st, .error (.notFound "Order not found"))
    | some o =>
      let o' := { o with status := status, updatedAt := now }
      (updateOrder st id o', .ok o')
  else
    (st, .error (.badRequest "Order validation failed: status"))

/-- DELETE /api/orders/:id (orders.js lines 371-392): soft delete,
`findByIdAndUpdate(id, { status: "cancelled" }, { new: true })`.
Unknown id is a 404; otherwise the status becomes `cancelled`, the record
is retained, `updatedAt` is refreshed. -/
def cancelOrder (st : Store) (id : String) (now : Nat) :
    Store × Except ApiError Order :=
  match findOrder st id with
  | none => (st, .error (.notFound "Order not found"))
  | some o =>
    let o' := { o with status := "cancelled", updatedAt := now }
    (updateOrder st id o', .ok o')

/-- GET /api/orders/:id (orders.js lines 98-108). -/
def getOrder (st : Store) (id : String) : Except ApiError Order :=
  match findOrder st id with
  | none => .error (.notFound "Order not found")
  | some o => .ok o

/-- GET /api/orders/user/:userId (orders.js lines 73-81):
`Order.find({ userId })`. -/
def listOrdersForUser (st : Store) (userId : String) : List Order :=
  st.orders.filter (fun o => o.userId == userId)

/-- GET /api/orders (orders.js lines 47-54): `Order.find()`. -/
def listOrders (st : Store) : List Order :=
  st.orders

/-- A concrete catalog for evaluating the definitions on closed inputs:
`P1` is a product whose document id equals the requested id, `PX` one whose
document id differs from the requested id. -/
def demoCatalog : Catalog := fun pid =>
  if pid == "P1" then some { mongoId := "P1", name := "Widget", price := 999/100 }
  else if pid == "PX" then some { mongoId := "X7", name := "Gadget", price := 5 }
  else none

/-- A concrete shipping address. -/
def demoAddress : Address :=
  { street := some "1 Main St", city := some "Springfield", state := some "IL",
    zipCode := some "62701", country := some "US" }

/-- A well-formed create request that also carries a forged price and name. -/
def demoRequest : CreateRequest :=
  { userId := "alice",
    items := [{ productId := "P1", quantity := 2, price := some (1/100), name := some "cheap" }],
    shippingAddress := demoAddress }

/-- `demoRequest` with different forged fields and identical core fields. -/
def demoRequestForged : CreateRequest :=
  { userId := "alice",
    items := [{ productId := "P1", quantity := 2, price := some 123, name := some "other" }],
    shippingAddress := demoAddress }

/-- The order that `createOrder` persists for `demoRequest` on an empty
store at time 5. -/
def demoOrder : Order :=
  { id := "0", userId := "alice",
    items := [{ productId := "P1", productName := "Widget", quantity := 2, price := 999/100 }],
    totalAmount := 999/50, status := "pending", shippingAddress := demoAddress,
    createdAt := 5, updatedAt := 5 }

/-- A request for the product whose catalog document id differs from the
requested identifier. -/
def demoRequestX : CreateRequest :=
  { userId := "carol",
    items := [{ productId := "PX", quantity := 1 }],
    shippingAddress := demoAddress }

/-- The order that `createOrder` persists for `demoRequestX` on an empty
store at time 9. -/
def demoOrderX : Order :=
  { id := "0", userId := "carol",
    items := [{ productId := "X7", productName := "Gadget", quantity := 1, price := 5 }],
    totalAmount := 5, status := "pending", shippingAddress := demoAddress,
    createdAt := 9, updatedAt := 9 }

/-- A persisted order in status `delivered`, for exercising the lifecycle
operations. -/
def deliveredOrder : Order :=
  { id := "7", userId := "bob",
    items := [{ productId := "P1", productName := "Widget", quantity := 1, price := 999/100 }],
    totalAmount := 999/100, status := "delivered", shippingAddress := demoAddress,
    createdAt := 3, updatedAt := 4 }

/-- A store holding only `deliveredOrder`. -/
def demoStore : Store := { orders := [deliveredOrder], nextId := 8 }

/-- A catalog snapshot that itself satisfies the product-service schema
(`name` required, `price` required with `min: 0`) and carries a non-empty
document id — what `GET /api/products/:id` returns for persisted products. -/
def wellFormedSnap (p : ProductSnapshot) : Bool :=
  p.mongoId != "" && p.name != "" && decide ((0 : Rat) ≤ p.price)

/-- The requested id resolves in the catalog to a well-formed snapshot. -/
def resolvesWF (catalog : Catalog) (pid : String) : Bool :=
  ((catalog pid).map wellFormedSnap).getD false

/-- A request whose second item does not resolve in the catalog and whose
third item would resolve but must never be looked up. -/
def demoRequestFail : CreateRequest :=
  { userId := "alice",
    items := [{ productId := "P1", quantity := 1 }, { productId := "P9", quantity := 1 },
              { productId := "PX", quantity := 1 }],
    shippingAddress := demoAddress }

/-- Two requested item lists that agree on `productId` and `quantity`
pointwise, differing at most in the caller-supplied (forged) price/name
fields that the handler never reads. -/
def SameCore (l1 l2 : List RequestItem) : Prop :=
  List.Forall₂ (fun a b => a.productId = b.productId ∧ a.quantity = b.quantity) l1 l2


/-! ## Basic equations for the enrichment loop -/

theorem enrichLoop_nil (catalog : Catalog) (acc : List OrderItem) (total : Rat) :
    enrichLoop catalog [] acc total = ([], .ok (acc, total)) := rfl

theorem enrichLoop_cons_fail (catalog : Catalog) (item : RequestItem)
    (rest : List RequestItem) (acc : List OrderItem) (total : Rat)
    (hc : catalog item.productId = none) :
    enrichLoop catalog (item :: rest) acc total =
      ([item.productId], .error item.productId) := by
  simp [enrichLoop, hc]

theorem enrichLoop_cons_hit (catalog : Catalog) (item : RequestItem)
    (rest : List RequestItem) (acc : List OrderItem) (total : Rat)
    (p : ProductSnapshot) (hc : catalog item.productId = some p) :
    enrichLoop catalog (item :: rest) acc total =
      (item.productId ::
         (enrichLoop catalog rest (acc ++ [⟨p.mongoId, p.name, item.quantity, p.price⟩])
           (total + p.price * item.quantity)).1,
       (enrichLoop catalog rest (acc ++ [⟨p.mongoId, p.name, item.quantity, p.price⟩])
           (total + p.price * item.quantity)).2) := by
  simp [enrichLoop, hc]

/-- Structure of a successful run of the enrichment loop: the accumulator is
extended by one enriched item per requested item, the trace covers every
requested item, the total is the accumulated sum of `price * quantity`, and
each new item is the catalog snapshot for the requested item at the same
position. -/
theorem enrichLoop_ok_spec (catalog : Catalog) :
    ∀ (l : List RequestItem) (acc : List OrderItem) (total : Rat)
      {tr : List String} {items : List OrderItem} {t : Rat},
      enrichLoop catalog l acc total = (tr, .ok (items, t)) →
      ∃ neu : List OrderItem,
        items = acc ++ neu ∧
        tr = l.map (fun i => i.productId) ∧
        t = total + (neu.map (fun i => i.price * (i.quantity : Rat))).sum ∧
        neu.length = l.length ∧
        ∀ (k : Nat) (ri : RequestItem), l[k]? = some ri →
          ∃ p : ProductSnapshot,
            catalog ri.productId = some p ∧
            neu[k]? = some { productId := p.mongoId, productName := p.name,
                             quantity := ri.quantity, price := p.price } := by
  intro l
  induction l with
  | nil =>
    intro acc total tr items t h
    rw [enrichLoop_nil] at h
    simp only [Prod.mk.injEq, Except.ok.injEq] at h
    obtain ⟨h1, h2, h3⟩ := h
    refine ⟨[], by simp [h2], h1.symm, by simp [h3], rfl, ?_⟩
    intro k ri hk
    simp at hk
  | cons item rest ih =>
    intro acc total tr items t h
    cases hc : catalog item.productId with
    | none =>
      rw [enrichLoop_cons_fail catalog item rest acc total hc] at h
      simp only [Prod.mk.injEq] at h
      exact absurd h.2 (by simp)
    | some p =>
      rw [enrichLoop_cons_hit catalog item rest acc total p hc] at h
      simp only [Prod.mk.injEq] at h
      obtain ⟨htr1, hsnd⟩ := h
      have h2 : (enrichLoop catalog rest (acc ++ [⟨p.mongoId, p.name, item.quantity, p.price⟩])
          (total + p.price * item.quantity)) =
          ((enrichLoop catalog rest (acc ++ [⟨p.mongoId, p.name, item.quantity, p.price⟩])
            (total + p.price * item.quantity)).1, Except.ok (items, t)) :=
        Prod.ext rfl hsnd
      obtain ⟨neu, hitems, htr, ht, hlen, hidx⟩ := ih _ _ h2
      refine ⟨⟨p.mongoId, p.name, item.quantity, p.price⟩ :: neu, ?_, ?_, ?_, ?_, ?_⟩
      · simp [hitems]
      · simp [htr1.symm, htr]
      · rw [ht]
        simp only [List.map_cons, List.sum_cons]
        ring
      · simp [hlen]
      · intro k ri hk
        cases k with
        | zero =>
          simp only [List.getElem?_cons_zero, Option.some.injEq] at hk
          subst hk
          exact ⟨p, hc, by simp⟩
        | succ k' =>
          simp only [List.getElem?_cons_succ] at hk
          obtain ⟨q, hq1, hq2⟩ := hidx k' ri hk
          exact ⟨q, hq1, by simpa using hq2⟩

/-- When every requested item resolves in the catalog, the loop succeeds and
looks up every requested item, in order. -/
theorem enrichLoop_allOk (catalog : Catalog) :
    ∀ (l : List RequestItem) (acc : List OrderItem) (total : Rat),
      (∀ (k : Nat) (ri : RequestItem), l[k]? = some ri → (catalog ri.productId).isSome) →
      ∃ items t, enrichLoop catalog l acc total =
        (l.map (fun i => i.productId), .ok (items, t)) := by
  intro l
  induction l with
  | nil =>
    intro acc total _
    exact ⟨acc, total, rfl⟩
  | cons item rest ih =>
    intro acc total hall
    have h0 : (catalog item.productId).isSome := hall 0 item (by simp)
    obtain ⟨p, hp⟩ := Option.isSome_iff_exists.mp h0
    have hrest : ∀ (k : Nat) (ri : RequestItem), rest[k]? = some ri →
        (catalog ri.productId).isSome := by
      intro k ri hk
      exact hall (k+1) ri (by simpa using hk)
    obtain ⟨items, t, hit⟩ := ih (acc ++ [⟨p.mongoId, p.name, item.quantity, p.price⟩])
      (total + p.price * item.quantity) hrest
    refine ⟨items, t, ?_⟩
    rw [enrichLoop_cons_hit catalog item rest acc total p hp, hit]
    simp

/-- When the item at position `k` is the first whose lookup fails, the loop
performs exactly the first `k+1` lookups and aborts with that item's
`productId`. -/
theorem enrichLoop_firstFail (catalog : Catalog) :
    ∀ (l : List RequestItem) (acc : List OrderItem) (total : Rat) (k : Nat)
      (ri : RequestItem),
      l[k]? = some ri → catalog ri.productId = none →
      (∀ (j : Nat) (rj : RequestItem), j < k → l[j]? = some rj →
        (catalog rj.productId).isSome) →
      enrichLoop catalog l acc total =
        ((l.take (k+1)).map (fun i => i.productId), .error ri.productId) := by
  intro l
  induction l with
  | nil =>
    intro acc total k ri hk
    simp at hk
  | cons item rest ih =>
    intro acc total k ri hk hfail hbefore
    cases k with
    | zero =>
      simp only [List.getElem?_cons_zero, Option.some.injEq] at hk
      subst hk
      rw [enrichLoop_cons_fail catalog item rest acc total hfail]
      simp
    | succ k' =>
      have h0 : (catalog item.productId).isSome :=
        hbefore 0 item (Nat.succ_pos k') (by simp)
      obtain ⟨p, hp⟩ := Option.isSome_iff_exists.mp h0
      have hk' : rest[k']? = some ri := by simpa using hk
      have hbefore' : ∀ (j : Nat) (rj : RequestItem), j < k' → rest[j]? = some rj →
          (catalog rj.productId).isSome := by
        intro j rj hj hjk
        exact hbefore (j+1) rj (Nat.succ_lt_succ hj) (by simpa using hjk)
      rw [enrichLoop_cons_hit catalog item rest acc total p hp,
        ih _ _ k' ri hk' hfail hbefore']
      simp

/-- The enrichment loop reads only `productId` and `quantity` from the
request items, so it is invariant under changes to the forged fields. -/
theorem enrichLoop_core_congr (catalog : Catalog) :
    ∀ {l1 l2 : List RequestItem}, SameCore l1 l2 →
      ∀ (acc : List OrderItem) (total : Rat),
        enrichLoop catalog l1 acc total = enrichLoop catalog l2 acc total := by
  intro l1 l2 h
  induction h with
  | nil => intro acc total; rfl
  | @cons a b t1 t2 hab htail ih =>
    intro acc total
    obtain ⟨h1, h2⟩ := hab
    simp only [enrichLoop, h1, h2]
    cases catalog b.productId with
    | none => rfl
    | some p => simp [ih]

/-- Replacing the found document keeps it findable under the same id. -/
theorem find_map_update (l : List Order) (id : String) (o o' : Order)
    (h : l.find? (fun q => q.id == id) = some o) (hid : o'.id = id) :
    (l.map (fun q => if q.id == id then o' else q)).find? (fun q => q.id == id) =
      some o' := by
  induction l with
  | nil => simp at h
  | cons a l ih =>
    by_cases ha : (a.id == id) = true
    · simp only [List.map_cons, if_pos ha, List.find?_cons]
      have h' : (o'.id == id) = true := by simp [hid]
      simp [h']
    · have ha' : (a.id == id) = false := by simpa using ha
      simp only [List.find?_cons, ha'] at h
      have e2 : List.find? (fun q => q.id == id)
            (List.map (fun q => if q.id == id then o' else q) (a :: l)) =
          List.find? (fun q => q.id == id)
            (List.map (fun q => if q.id == id then o' else q) l) := by
        rw [List.map_cons, if_neg ha, List.find?_cons, ha']
      rw [e2]
      exact ih h

/-- The replacement document is a member of the updated collection. -/
theorem mem_map_update (l : List Order) (id : String) (o o' : Order)
    (h : l.find? (fun q => q.id == id) = some o) :
    o' ∈ l.map (fun q => if q.id == id then o' else q) := by
  have hmem := List.mem_of_find?_eq_some h
  have hp := List.find?_some h
  simp only at hp
  exact List.mem_map.mpr ⟨o, hmem, by simp [hp]⟩

/-- Anatomy of a successful POST /: the response order is exactly the
document appended to the collection, its scalar fields come from the
request and the clock, its items and total come from the enrichment loop,
and it passed schema validation. -/
theorem createOrder_ok_spec (st st' : Store) (catalog : Catalog)
    (req : CreateRequest) (now : Nat) (tr : List String) (o : Order)
    (h : createOrder st catalog req now = (st', tr, .ok o)) :
    st'.orders = st.orders ++ [o] ∧
    st'.nextId = st.nextId + 1 ∧
    o.id = toString st.nextId ∧
    o.userId = req.userId ∧
    o.status = "pending" ∧
    o.shippingAddress = req.shippingAddress ∧
    o.createdAt = now ∧ o.updatedAt = now ∧
    tr = req.items.map (fun i => i.productId) ∧
    o.totalAmount = (o.items.map (fun i => i.price * (i.quantity : Rat))).sum ∧
    o.items.length = req.items.length ∧
    validOrderDoc o = true ∧
    ∀ (k : Nat) (ri : RequestItem), req.items[k]? = some ri →
      ∃ p : ProductSnapshot, catalog ri.productId = some p ∧
        o.items[k]? = some { productId := p.mongoId, productName := p.name,
                             quantity := ri.quantity, price := p.price } := by
  simp only [createOrder] at h
  split at h
  · exact absurd (congrArg (fun x => x.2.2) h) (by simp)
  · rename_i enriched totalA heq
    split at h
    · rename_i hv
      have hpair : enrichLoop catalog req.items [] 0 =
          ((enrichLoop catalog req.items [] 0).1, .ok (enriched, totalA)) :=
        Prod.ext rfl heq
      obtain ⟨neu, hitems, htr, ht, hlen, hidx⟩ :=
        enrichLoop_ok_spec catalog req.items [] 0 hpair
      simp only [List.nil_append] at hitems
      subst hitems
      simp only [Prod.mk.injEq, Except.ok.injEq] at h
      obtain ⟨hst, htrace, ho⟩ := h
      subst ho
      subst hst
      refine ⟨rfl, rfl, rfl, rfl, rfl, rfl, rfl, rfl, ?_, ?_, ?_, hv, ?_⟩
      · rw [htrace.symm, htr]
      · simpa using ht
      · simpa using hlen
      · intro k ri hk
        obtain ⟨p, hp1, hp2⟩ := hidx k ri hk
        exact ⟨p, hp1, hp2⟩
    · exact absurd (congrArg (fun x => x.2.2) h) (by simp)

/-- Concrete run: `demoRequest` against `demoCatalog` on the empty store. -/
theorem demoCreate_eval :
    createOrder Store.empty demoCatalog demoRequest 5 =
      ({ orders := [demoOrder], nextId := 1 }, ["P1"], .ok demoOrder) := by
  norm_num [createOrder, enrichLoop, demoCatalog, demoRequest, demoOrder, demoAddress,
    validOrderDoc, validItem, validStatus, Store.empty]
  rw [if_pos (by decide)]
  rfl

/-- Concrete run: `demoRequestX` against `demoCatalog` on the empty store;
the catalog document id `X7` differs from the requested id `PX`. -/
theorem demoCreateX_eval :
    createOrder Store.empty demoCatalog demoRequestX 9 =
      ({ orders := [demoOrderX], nextId := 1 }, ["PX"], .ok demoOrderX) := by
  have hcat : demoCatalog "PX" = some { mongoId := "X7", name := "Gadget", price := 5 } := rfl
  simp only [createOrder, enrichLoop, demoRequestX, hcat]
  norm_num [validOrderDoc, validItem, validStatus, Store.empty, demoOrderX, demoAddress]
  rw [if_pos (by decide)]
  rfl

/-- C1: for every successfully created order, the persisted `totalAmount`
equals the exact sum over its items of `item.price * item.quantity`, the
order is appended to the store, and each item's `price` is the unit price
returned by the catalog lookup for the item requested at that position. -/
theorem createOrder_totalAmount_exact (st st' : Store) (catalog : Catalog)
    (req : CreateRequest) (now : Nat) (tr : List String) (o : Order)
    (h : createOrder st catalog req now = (st', tr, .ok o)) :
    o.totalAmount = (o.items.map (fun i => i.price * (i.quantity : Rat))).sum ∧
    st'.orders = st.orders ++ [o] ∧
    ∀ (k : Nat) (ri : RequestItem), req.items[k]? = some ri →
      ∃ p : ProductSnapshot, catalog ri.productId = some p ∧
        ∃ oi : OrderItem, o.items[k]? = some oi ∧ oi.price = p.price := by
  obtain ⟨h1, _, _, _, _, _, _, _, _, h10, _, _, h13⟩ :=
    createOrder_ok_spec st st' catalog req now tr o h
  refine ⟨h10, h1, ?_⟩
  intro k ri hk
  obtain ⟨p, hp1, hp2⟩ := h13 k ri hk
  exact ⟨p, hp1, _, hp2, rfl⟩

theorem createOrder_totalAmount_exact_witness :
    createOrder Store.empty demoCatalog demoRequest 5 =
      ({ orders := [demoOrder], nextId := 1 }, ["P1"], .ok demoOrder) ∧
    (demoOrder.totalAmount =
        (demoOrder.items.map (fun i => i.price * (i.quantity : Rat))).sum ∧
      ({ orders := [demoOrder], nextId := 1 } : Store).orders =
        Store.empty.orders ++ [demoOrder] ∧
      ∀ (k : Nat) (ri : RequestItem), demoRequest.items[k]? = some ri →
        ∃ p : ProductSnapshot, demoCatalog ri.productId = some p ∧
          ∃ oi : OrderItem, demoOrder.items[k]? = some oi ∧ oi.price = p.price) :=
  ⟨demoCreate_eval,
   createOrder_totalAmount_exact Store.empty { orders := [demoOrder], nextId := 1 }
     demoCatalog demoRequest 5 ["P1"] demoOrder demoCreate_eval⟩

/-- C2: every stored item's `productName` and `price` are the catalog's
values for the item requested at the same position, never the
caller-supplied ones; and two requests differing only in caller-supplied
price/name fields on the items produce identical results. -/
theorem createOrder_snapshot_untampered (st st' : Store) (catalog : Catalog)
    (req req2 : CreateRequest) (now : Nat) (tr : List String) (o : Order) :
    (createOrder st catalog req now = (st', tr, .ok o) →
      ∀ (k : Nat) (ri : RequestItem), req.items[k]? = some ri →
        ∃ p : ProductSnapshot, catalog ri.productId = some p ∧
          o.items[k]? = some { productId := p.mongoId, productName := p.name,
                               quantity := ri.quantity, price := p.price }) ∧
    (req.userId = req2.userId → req.shippingAddress = req2.shippingAddress →
      SameCore req.items req2.items →
      createOrder st catalog req now = createOrder st catalog req2 now) := by
  constructor
  · intro h k ri hk
    obtain ⟨_, _, _, _, _, _, _, _, _, _, _, _, h13⟩ :=
      createOrder_ok_spec st st' catalog req now tr o h
    exact h13 k ri hk
  · intro huser haddr hsame
    simp only [createOrder, enrichLoop_core_congr catalog hsame [] 0, huser, haddr]

theorem createOrder_snapshot_untampered_witness :
    (∀ (k : Nat) (ri : RequestItem), demoRequest.items[k]? = some ri →
      ∃ p : ProductSnapshot, demoCatalog ri.productId = some p ∧
        demoOrder.items[k]? = some { productId := p.mongoId, productName := p.name,
                                     quantity := ri.quantity, price := p.price }) ∧
    createOrder Store.empty demoCatalog demoRequest 5 =
      createOrder Store.empty demoCatalog demoRequestForged 5 :=
  ⟨(createOrder_snapshot_untampered Store.empty { orders := [demoOrder], nextId := 1 }
      demoCatalog demoRequest demoRequestForged 5 ["P1"] demoOrder).1 demoCreate_eval,
   (createOrder_snapshot_untampered Store.empty { orders := [demoOrder], nextId := 1 }
      demoCatalog demoRequest demoRequestForged 5 ["P1"] demoOrder).2 rfl rfl
     (List.Forall₂.cons ⟨rfl, rfl⟩ List.Forall₂.nil)⟩

/-- C3: when the item at position `k` is the first whose catalog lookup
fails, the workflow aborts there: the store is unchanged, exactly the
first `k+1` lookups are performed (none for later items), and the response
is a 400 validation error naming the failing `productId`. -/
theorem createOrder_firstFailure_aborts (st : Store) (catalog : Catalog)
    (req : CreateRequest) (now : Nat) (k : Nat) (ri : RequestItem)
    (hk : req.items[k]? = some ri) (hfail : catalog ri.productId = none)
    (hbefore : ∀ (j : Nat) (rj : RequestItem), j < k → req.items[j]? = some rj →
      (catalog rj.productId).isSome) :
    createOrder st catalog req now =
      (st, (req.items.take (k+1)).map (fun i => i.productId),
       .error (.badRequest ("Product " ++ ri.productId ++ " not found"))) := by
  simp only [createOrder,
    enrichLoop_firstFail catalog req.items [] 0 k ri hk hfail hbefore]

theorem createOrder_firstFailure_aborts_witness :
    demoRequestFail.items[1]? = some { productId := "P9", quantity := 1 } ∧
    demoCatalog "P9" = none ∧
    createOrder Store.empty demoCatalog demoRequestFail 5 =
      (Store.empty, ["P1", "P9"], .error (.badRequest "Product P9 not found")) := by
  refine ⟨rfl, rfl, ?_⟩
  have h := createOrder_firstFailure_aborts Store.empty demoCatalog demoRequestFail 5 1
    { productId := "P9", quantity := 1 } rfl rfl
    (by
      intro j rj hj hjk
      match j, hj with
      | 0, _ =>
        have hrj : rj = { productId := "P1", quantity := 1 } := by
          simpa [demoRequestFail] using hjk.symm
        rw [hrj]
        rfl)
  exact h

/-- C10: each stored item's `productId` is the identifier field of the
catalog document (`product._id`), not the caller-supplied requested id;
whenever the catalog returns a different identifier, the stored value
differs from the requested one. -/
theorem createOrder_stores_catalog_document_id (st st' : Store) (catalog : Catalog)
    (req : CreateRequest) (now : Nat) (tr : List String) (o : Order)
    (h : createOrder st catalog req now = (st', tr, .ok o)) :
    ∀ (k : Nat) (ri : RequestItem), req.items[k]? = some ri →
      ∃ p : ProductSnapshot, catalog ri.productId = some p ∧
        ∃ oi : OrderItem, o.items[k]? = some oi ∧ oi.productId = p.mongoId ∧
          (p.mongoId ≠ ri.productId → oi.productId ≠ ri.productId) := by
  intro k ri hk
  obtain ⟨_, _, _, _, _, _, _, _, _, _, _, _, h13⟩ :=
    createOrder_ok_spec st st' catalog req now tr o h
  obtain ⟨p, hp1, hp2⟩ := h13 k ri hk
  exact ⟨p, hp1, _, hp2, rfl, fun hne => hne⟩

theorem createOrder_stores_catalog_document_id_witness :
    createOrder Store.empty demoCatalog demoRequestX 9 =
      ({ orders := [demoOrderX], nextId := 1 }, ["PX"], .ok demoOrderX) ∧
    demoOrderX.items[0]? = some { productId := "X7", productName := "Gadget",
                                  quantity := 1, price := 5 } ∧
    (∀ (k : Nat) (ri : RequestItem), demoRequestX.items[k]? = some ri →
      ∃ p : ProductSnapshot, demoCatalog ri.productId = some p ∧
        ∃ oi : OrderItem, demoOrderX.items[k]? = some oi ∧ oi.productId = p.mongoId ∧
          (p.mongoId ≠ ri.productId → oi.productId ≠ ri.productId)) :=
  ⟨demoCreateX_eval, rfl,
   createOrder_stores_catalog_document_id Store.empty { orders := [demoOrderX], nextId := 1 }
     demoCatalog demoRequestX 9 ["PX"] demoOrderX demoCreateX_eval⟩

/-- C5: for an existing order, `setOrderStatus` unconditionally overwrites
the status with any enum member — regardless of the current status, with
no transition graph — and the updated document remains findable; any value
outside the enum is rejected with a 400 validation error and the store is
unchanged. -/
theorem setOrderStatus_any_transition (st : Store) (id status : String) (now : Nat)
    (o : Order) (hfound : findOrder st id = some o) :
    (validStatus status = true →
      setOrderStatus st id status now =
        (updateOrder st id { o with status := status, updatedAt := now },
         .ok { o with status := status, updatedAt := now }) ∧
      getOrder (updateOrder st id { o with status := status, updatedAt := now }) id =
        .ok { o with status := status, updatedAt := now }) ∧
    (validStatus status = false →
      setOrderStatus st id status now =
        (st, .error (.badRequest "Order validation failed: status"))) := by
  have hido : o.id = id := by
    have hp := List.find?_some hfound
    simp only at hp
    exact eq_of_beq hp
  constructor
  · intro hv
    have hfind' := find_map_update st.orders id o
      { o with status := status, updatedAt := now } hfound hido
    constructor
    · simp [setOrderStatus, hv, hfound]
    · simp only [getOrder, findOrder, updateOrder]
      rw [hfind']
  · intro hv
    simp [setOrderStatus, hv]

theorem setOrderStatus_any_transition_witness :
    findOrder demoStore "7" = some deliveredOrder ∧
    deliveredOrder.status = "delivered" ∧
    (validStatus "pending" = true →
      setOrderStatus demoStore "7" "pending" 11 =
        (updateOrder demoStore "7" { deliveredOrder with status := "pending", updatedAt := 11 },
         .ok { deliveredOrder with status := "pending", updatedAt := 11 }) ∧
      getOrder (updateOrder demoStore "7"
          { deliveredOrder with status := "pending", updatedAt := 11 }) "7" =
        .ok { deliveredOrder with status := "pending", updatedAt := 11 }) ∧
    (validStatus "bogus" = true →
      setOrderStatus demoStore "7" "bogus" 11 =
        (updateOrder demoStore "7" { deliveredOrder with status := "bogus", updatedAt := 11 },
         .ok { deliveredOrder with status := "bogus", updatedAt := 11 }) ∧
      getOrder (updateOrder demoStore "7"
          { deliveredOrder with status := "bogus", updatedAt := 11 }) "7" =
        .ok { deliveredOrder with status := "bogus", updatedAt := 11 }) ∧
    (validStatus "bogus" = false →
      setOrderStatus demoStore "7" "bogus" 11 =
        (demoStore, .error (.badRequest "Order validation failed: status"))) :=
  ⟨rfl, rfl,
   (setOrderStatus_any_transition demoStore "7" "pending" 11 deliveredOrder rfl).1,
   (setOrderStatus_any_transition demoStore "7" "bogus" 11 deliveredOrder rfl).1,
   (setOrderStatus_any_transition demoStore "7" "bogus" 11 deliveredOrder rfl).2⟩

/-- C6: cancelling an existing order sets its status to `cancelled`
without removing the record: the same id still resolves via `getOrder`
and the order still appears among the user's orders. -/
theorem cancelOrder_soft_delete (st : Store) (id : String) (now : Nat) (o : Order)
    (hfound : findOrder st id = some o) :
    ∃ st' : Store,
      cancelOrder st id now =
        (st', .ok { o with status := "cancelled", updatedAt := now }) ∧
      getOrder st' id = .ok { o with status := "cancelled", updatedAt := now } ∧
      { o with status := "cancelled", updatedAt := now } ∈ listOrdersForUser st' o.userId := by
  have hido : o.id = id := by
    have hp := List.find?_some hfound
    simp only at hp
    exact eq_of_beq hp
  have hfind' := find_map_update st.orders id o
    { o with status := "cancelled", updatedAt := now } hfound hido
  have hmem := mem_map_update st.orders id o
    { o with status := "cancelled", updatedAt := now } hfound
  refine ⟨updateOrder st id { o with status := "cancelled", updatedAt := now }, ?_, ?_, ?_⟩
  · simp [cancelOrder, hfound]
  · simp only [getOrder, findOrder, updateOrder]
    rw [hfind']
  · simp only [listOrdersForUser, updateOrder]
    rw [List.mem_filter]
    exact ⟨hmem, by simp⟩

theorem cancelOrder_soft_delete_witness :
    findOrder demoStore "7" = some deliveredOrder ∧
    (∃ st' : Store,
      cancelOrder demoStore "7" 12 =
        (st', .ok { deliveredOrder with status := "cancelled", updatedAt := 12 }) ∧
      getOrder st' "7" = .ok { deliveredOrder with status := "cancelled", updatedAt := 12 } ∧
      { deliveredOrder with status := "cancelled", updatedAt := 12 } ∈
        listOrdersForUser st' deliveredOrder.userId) :=
  ⟨rfl, cancelOrder_soft_delete demoStore "7" 12 deliveredOrder rfl⟩

/-- C7 as stated is false: with an invalid status value, `setOrderStatus`
on an order id that does not resolve fails with the 400 validation error
produced by the update validator, not with a 404 not-found error. -/
theorem setOrderStatus_unknown_id_invalid_status_cex :
    findOrder Store.empty "missing" = none ∧
    (setOrderStatus Store.empty "missing" "bogus" 0).2 =
      .error (.badRequest "Order validation failed: status") ∧
    (setOrderStatus Store.empty "missing" "bogus" 0).2 ≠
      .error (.notFound "Order not found") :=
  ⟨rfl, rfl, fun h => ApiError.noConfusion (Except.error.inj h)⟩

/-- C7 amended: for an order id that does not resolve, `cancelOrder`
always fails with 404 not-found, and `setOrderStatus` fails with
404 not-found whenever the status is a valid enum member (an invalid
status is rejected with a 400 validation error before the lookup runs);
in every case the store is unchanged. -/
theorem unknown_orderId_notFound_no_side_effects (st : Store) (id status : String)
    (now : Nat) (hmissing : findOrder st id = none) :
    (validStatus status = true →
      setOrderStatus st id status now = (st, .error (.notFound "Order not found"))) ∧
    (validStatus status = false →
      setOrderStatus st id status now =
        (st, .error (.badRequest "Order validation failed: status"))) ∧
    cancelOrder st id now = (st, .error (.notFound "Order not found")) := by
  refine ⟨?_, ?_, ?_⟩
  · intro hv
    simp [setOrderStatus, hv, hmissing]
  · intro hv
    simp [setOrderStatus, hv]
  · simp [cancelOrder, hmissing]

theorem unknown_orderId_notFound_no_side_effects_witness :
    findOrder Store.empty "missing" = none ∧
    ((validStatus "shipped" = true →
      setOrderStatus Store.empty "missing" "shipped" 0 =
        (Store.empty, .error (.notFound "Order not found"))) ∧
    (validStatus "shipped" = false →
      setOrderStatus Store.empty "missing" "shipped" 0 =
        (Store.empty, .error (.badRequest "Order validation failed: status"))) ∧
    cancelOrder Store.empty "missing" 0 =
      (Store.empty, .error (.notFound "Order not found"))) :=
  ⟨rfl, unknown_orderId_notFound_no_side_effects Store.empty "missing" "shipped" 0 rfl⟩

/-- C8: a successful `setOrderStatus` changes only `status` and
`updatedAt`: items, totalAmount, userId, shippingAddress, createdAt and
the id are unchanged, and the new `updatedAt` is at least the previous
one. -/
theorem setOrderStatus_frame_condition (st : Store) (id status : String) (now : Nat)
    (o : Order) (hfound : findOrder st id = some o)
    (hvalid : validStatus status = true) (hnow : o.updatedAt ≤ now) :
    ∃ (st' : Store) (o' : Order),
      setOrderStatus st id status now = (st', .ok o') ∧
      o'.status = status ∧
      o'.items = o.items ∧ o'.totalAmount = o.totalAmount ∧
      o'.userId = o.userId ∧ o'.shippingAddress = o.shippingAddress ∧
      o'.createdAt = o.createdAt ∧ o'.id = o.id ∧
      o.updatedAt ≤ o'.updatedAt := by
  refine ⟨updateOrder st id { o with status := status, updatedAt := now },
    { o with status := status, updatedAt := now },
    ?_, rfl, rfl, rfl, rfl, rfl, rfl, rfl, hnow⟩
  simp [setOrderStatus, hvalid, hfound]

theorem setOrderStatus_frame_condition_witness :
    findOrder demoStore "7" = some deliveredOrder ∧
    validStatus "shipped" = true ∧
    deliveredOrder.updatedAt ≤ 20 ∧
    (∃ (st' : Store) (o' : Order),
      setOrderStatus demoStore "7" "shipped" 20 = (st', .ok o') ∧
      o'.status = "shipped" ∧
      o'.items = deliveredOrder.items ∧ o'.totalAmount = deliveredOrder.totalAmount ∧
      o'.userId = deliveredOrder.userId ∧
      o'.shippingAddress = deliveredOrder.shippingAddress ∧
      o'.createdAt = deliveredOrder.createdAt ∧ o'.id = deliveredOrder.id ∧
      deliveredOrder.updatedAt ≤ o'.updatedAt) :=
  ⟨rfl, rfl, by decide,
   setOrderStatus_frame_condition demoStore "7" "shipped" 20 deliveredOrder rfl rfl
     (by decide)⟩

/-- C9: an empty `items` array is not rejected: the workflow performs no
lookup, persists an order with zero items, `totalAmount = 0` and status
`pending`. -/
theorem createOrder_empty_items_permitted (st : Store) (catalog : Catalog)
    (userId : String) (addr : Address) (now : Nat) (huser : userId ≠ "") :
    ∃ (st' : Store) (o : Order),
      createOrder st catalog { userId := userId, items := [], shippingAddress := addr } now =
        (st', [], .ok o) ∧
      o.items = [] ∧ o.totalAmount = 0 ∧ o.status = "pending" ∧
      st'.orders = st.orders ++ [o] := by
  refine ⟨{ orders := st.orders ++ [{ id := toString st.nextId, userId := userId, items := [], totalAmount := 0, status := "pending", shippingAddress := addr, createdAt := now, updatedAt := now }], nextId := st.nextId + 1 },
    { id := toString st.nextId, userId := userId, items := [], totalAmount := 0, status := "pending", shippingAddress := addr, createdAt := now, updatedAt := now },
    ?_, rfl, rfl, rfl, rfl⟩
  simp [createOrder, enrichLoop, validOrderDoc, validItem, validStatus, huser]

theorem createOrder_empty_items_permitted_witness :
    ("dana" : String) ≠ "" ∧
    (∃ (st' : Store) (o : Order),
      createOrder Store.empty demoCatalog
          { userId := "dana", items := [], shippingAddress := demoAddress } 3 =
        (st', [], .ok o) ∧
      o.items = [] ∧ o.totalAmount = 0 ∧ o.status = "pending" ∧
      st'.orders = Store.empty.orders ++ [o]) :=
  ⟨by decide,
   createOrder_empty_items_permitted Store.empty demoCatalog "dana" demoAddress 3
     (by decide)⟩

/-- C4: when every requested item resolves in the catalog (to a snapshot
that itself satisfies the product schema), every quantity is at least 1
and the userId is present, order creation succeeds and the persisted
order contains exactly one item per requested pair, in request order —
the k-th stored item is the enrichment of the k-th requested pair — with
status `pending`. -/
theorem createOrder_allResolved_persists_in_sequence (st : Store) (catalog : Catalog)
    (req : CreateRequest) (now : Nat)
    (hresolve : ∀ ri ∈ req.items, resolvesWF catalog ri.productId = true)
    (hqty : ∀ ri ∈ req.items, 1 ≤ ri.quantity)
    (huser : req.userId ≠ "") :
    ∃ (st' : Store) (tr : List String) (o : Order),
      createOrder st catalog req now = (st', tr, .ok o) ∧
      st'.orders = st.orders ++ [o] ∧
      o.status = "pending" ∧
      o.items.length = req.items.length ∧
      ∀ (k : Nat) (ri : RequestItem), req.items[k]? = some ri →
        ∃ p : ProductSnapshot, catalog ri.productId = some p ∧
          o.items[k]? = some { productId := p.mongoId, productName := p.name,
                               quantity := ri.quantity, price := p.price } := by
  have hallSome : ∀ (k : Nat) (ri : RequestItem), req.items[k]? = some ri →
      (catalog ri.productId).isSome := by
    intro k ri hk
    have hw := hresolve ri (List.getElem?_mem hk)
    unfold resolvesWF at hw
    cases hc : catalog ri.productId with
    | none => rw [hc] at hw; simp at hw
    | some p => rfl
  obtain ⟨items0, t0, heq⟩ := enrichLoop_allOk catalog req.items [] 0 hallSome
  obtain ⟨neu, hitems, _, ht, hlen, hidx⟩ := enrichLoop_ok_spec catalog req.items [] 0 heq
  simp only [List.nil_append] at hitems
  subst hitems
  have hvi : ∀ oi ∈ items0, validItem oi = true := by
    intro oi hoi
    obtain ⟨k, hk⟩ := List.mem_iff_getElem?.mp hoi
    have hklt : k < req.items.length := by
      rcases List.getElem?_eq_some.mp hk with ⟨h1, _⟩
      rw [hlen] at h1
      exact h1
    have hreq : req.items[k]? = some req.items[k] := List.getElem?_eq_getElem hklt
    obtain ⟨p, hp, hoik⟩ := hidx k req.items[k] hreq
    rw [hk] at hoik
    have hoi_eq : oi = { productId := p.mongoId, productName := p.name, quantity := req.items[k].quantity, price := p.price } := Option.some.inj hoik
    have hmemk : req.items[k] ∈ req.items := List.getElem_mem hklt
    have hwf := hresolve _ hmemk
    unfold resolvesWF at hwf
    rw [hp] at hwf
    simp only [Option.map_some', Option.getD_some] at hwf
    have hq := hqty _ hmemk
    subst hoi_eq
    simp only [validItem, wellFormedSnap, Bool.and_eq_true, bne_iff_ne, ne_eq,
      decide_eq_true_eq] at hwf ⊢
    exact ⟨⟨⟨hwf.1.1, hwf.1.2⟩, hq⟩, hwf.2⟩
  have hsum : (0:Rat) ≤ t0 := by
    rw [ht]
    simp only [zero_add]
    apply List.sum_nonneg
    intro x hx
    obtain ⟨oi, hoi, hxe⟩ := List.mem_map.mp hx
    have hv := hvi oi hoi
    simp only [validItem, Bool.and_eq_true, decide_eq_true_eq] at hv
    have h2 : (0:Rat) ≤ (oi.quantity : Rat) := by
      have h3 : (0:Int) ≤ oi.quantity := le_trans zero_le_one hv.1.2
      exact_mod_cast h3
    rw [← hxe]
    exact mul_nonneg hv.2 h2
  have hdoc : validOrderDoc { id := toString st.nextId, userId := req.userId, items := items0, totalAmount := t0, status := "pending", shippingAddress := req.shippingAddress, createdAt := now, updatedAt := now } = true := by
    simp only [validOrderDoc, Bool.and_eq_true, bne_iff_ne, ne_eq, decide_eq_true_eq]
    exact ⟨⟨⟨huser, List.all_eq_true.mpr hvi⟩, hsum⟩, rfl⟩
  refine ⟨{ orders := st.orders ++ [{ id := toString st.nextId, userId := req.userId, items := items0, totalAmount := t0, status := "pending", shippingAddress := req.shippingAddress, createdAt := now, updatedAt := now }], nextId := st.nextId + 1 },
    req.items.map (fun i => i.productId),
    { id := toString st.nextId, userId := req.userId, items := items0, totalAmount := t0, status := "pending", shippingAddress := req.shippingAddress, createdAt := now, updatedAt := now },
    ?_, rfl, rfl, hlen, ?_⟩
  · simp [createOrder, heq, hdoc]
  · intro k ri hk
    exact hidx k ri hk

theorem createOrder_allResolved_persists_in_sequence_witness :
    (∀ ri ∈ demoRequestX.items, resolvesWF demoCatalog ri.productId = true) ∧
    (∀ ri ∈ demoRequestX.items, 1 ≤ ri.quantity) ∧
    demoRequestX.userId ≠ "" ∧
    (∃ (st' : Store) (tr : List String) (o : Order),
      createOrder Store.empty demoCatalog demoRequestX 9 = (st', tr, .ok o) ∧
      st'.orders = Store.empty.orders ++ [o] ∧
      o.status = "pending" ∧
      o.items.length = demoRequestX.items.length ∧
      ∀ (k : Nat) (ri : RequestItem), demoRequestX.items[k]? = some ri →
        ∃ p : ProductSnapshot, demoCatalog ri.productId = some p ∧
          o.items[k]? = some { productId := p.mongoId, productName := p.name,
                               quantity := ri.quantity, price := p.price }) :=
  ⟨by decide, by decide, by decide,
   createOrder_allResolved_persists_in_sequence Store.empty demoCatalog demoRequestX 9
     (by decide) (by decide) (by decide)⟩
